import Mathlib

/-!
Verification of `update_env_from_deployment.py`, the one-file utility that
synchronizes a `.env` file with `deployments/localhost-latest.json`.

The embedding is line-based: a text file is a list of lines (each a
`String`, newline not included), the parsed JSON deployment record is a
`DeploymentJson`, and the in-memory `env_vars` dictionary is a lookup
function `String → Option String` (the program never iterates over the
dictionary, so lookup/insert semantics determine all observable behavior).
Python string primitives (`strip`, `startswith`, `split` on the first
equals sign) are translated to explicit `List Char` recursions so that
theorems can reason about them symbolically.
-/

namespace TrustFlow

/-- The ASCII whitespace characters removed by Python `str.strip`. -/
def pyIsSpace (c : Char) : Bool :=
  c == ' ' || c == '\t' || c == '\n' || c == '\r' || c == '\x0b' || c == '\x0c'

/-- Remove leading whitespace (the left half of Python `strip`). -/
def stripLeftL (l : List Char) : List Char := l.dropWhile pyIsSpace

/-- Remove trailing whitespace (the right half of Python `strip`). -/
def stripRightL (l : List Char) : List Char := (l.reverse.dropWhile pyIsSpace).reverse

/-- Python `str.strip`: whitespace removed from both ends. -/
def stripL (l : List Char) : List Char := stripLeftL (stripRightL l)

/-- Python `str.strip` on a `String`. -/
def pyStrip (s : String) : String := String.mk (stripL s.data)

/-- Python `line.split` with separator `=` and maxsplit 1, when `=` occurs
in the line: the part before the first `=` and everything after it; `none`
when `=` is absent (the code guards the split with `'=' in line`). -/
def splitEqL : List Char → Option (List Char × List Char)
  | [] => none
  | c :: rest =>
    if c == '=' then some ([], rest)
    else
      match splitEqL rest with
      | none => none
      | some kv => some (c :: kv.1, kv.2)

/-- The in-memory `env_vars` dictionary: a string-keyed lookup map. -/
abbrev EnvMap := String → Option String

def emptyMap : EnvMap := fun _ => none

/-- Assignment to a Python dict entry, observed through lookup. -/
def dictInsert (m : EnvMap) (k v : String) : EnvMap :=
  fun q => if q = k then some v else m q

/-- One iteration of the `.env`-reading loop (source lines 32 to 36): strip
the line; skip it when it is empty, starts with `#`, or contains no `=`;
otherwise split on the first `=` and strip both sides. -/
def lineEntryL (raw : List Char) : Option (List Char × List Char) :=
  let line := stripL raw
  if line = [] then none
  else if line.head? = some '#' then none
  else (splitEqL line).map (fun kv => (stripL kv.1, stripL kv.2))

/-- Packaging of `lineEntryL` on `String` values. -/
def lineEntry (raw : String) : Option (String × String) :=
  (lineEntryL raw.data).map (fun kv => (String.mk kv.1, String.mk kv.2))

/-- Reading an existing `.env` into `env_vars` (source lines 30 to 36):
process the lines in order, later occurrences of a key overwriting earlier
ones. -/
def parseEnvLines (lines : List String) : EnvMap :=
  lines.foldl
    (fun acc l =>
      match lineEntry l with
      | some kv => dictInsert acc kv.1 kv.2
      | none => acc)
    emptyMap

/-- The parsed deployment JSON. `contracts = none` models a JSON object
with no `contracts` key (so the subscript access on line 25 raises
KeyError); `configuration = none` models a missing `configuration` key
(handled by the `.get` with an empty-dict default on line 26). -/
structure DeploymentJson where
  contracts : Option EnvMap
  configuration : Option EnvMap

/- The JSON field names and `.env` keys the program manipulates, and the
three fixed defaults. -/

def keyRideOrder : String := "rideOrder"
def keyPaymentEscrow : String := "paymentEscrow"
def keyUserRegistry : String := "userRegistry"
def keyRatingSystem : String := "ratingSystem"
def keyDisputeResolution : String := "disputeResolution"
def keyPlatformWallet : String := "platformWallet"
def kRideOrderAddr : String := "RIDE_ORDER_ADDRESS"
def kPaymentEscrowAddr : String := "PAYMENT_ESCROW_ADDRESS"
def kUserRegistryAddr : String := "USER_REGISTRY_ADDRESS"
def kRatingSystemAddr : String := "RATING_SYSTEM_ADDRESS"
def kDisputeResolutionAddr : String := "DISPUTE_RESOLUTION_ADDRESS"
def kPlatformWallet : String := "PLATFORM_WALLET"
def kRpcUrl : String := "RPC_URL"
def kChainId : String := "CHAIN_ID"
def kPlatformFeeRate : String := "PLATFORM_FEE_RATE"
def defaultRpcUrl : String := "http://127.0.0.1:8545"
def defaultChainId : String := "1337"
def defaultFeeRate : String := "5"

/-- The merge step (source lines 39 to 52): the five contract-address keys
and `PLATFORM_WALLET` are overwritten unconditionally from the deployment
data (empty string when the source key is absent), then `RPC_URL`,
`CHAIN_ID` and `PLATFORM_FEE_RATE` receive fixed defaults only when not
already present. -/
def mergeEnvVars (contracts config : EnvMap) (ev0 : EnvMap) : EnvMap :=
  let ev := dictInsert ev0 kRideOrderAddr ((contracts keyRideOrder).getD (""))
  let ev := dictInsert ev kPaymentEscrowAddr ((contracts keyPaymentEscrow).getD (""))
  let ev := dictInsert ev kUserRegistryAddr ((contracts keyUserRegistry).getD (""))
  let ev := dictInsert ev kRatingSystemAddr ((contracts keyRatingSystem).getD (""))
  let ev := dictInsert ev kDisputeResolutionAddr ((contracts keyDisputeResolution).getD (""))
  let ev := dictInsert ev kPlatformWallet ((config keyPlatformWallet).getD (""))
  let ev := if (ev kRpcUrl).isNone then dictInsert ev kRpcUrl defaultRpcUrl else ev
  let ev := if (ev kChainId).isNone then dictInsert ev kChainId defaultChainId else ev
  let ev := if (ev kPlatformFeeRate).isNone then dictInsert ev kPlatformFeeRate defaultFeeRate else ev
  ev

/-- One `KEY=VALUE` line as written by the f-string writes. -/
def envLine (k v : String) : String := k ++ "=" ++ v

/-- The full-file rewrite (source lines 55 to 70), as the list of written
lines. `ts` is the ISO timestamp from `datetime.now`. The subscript
accesses on the six address and wallet keys are modeled with `.getD`
and an empty-string default; at this program point every such key was just
inserted by `mergeEnvVars`, so the default is never taken (Python would
raise KeyError otherwise). -/
def writeEnvLines (ts : String) (ev : EnvMap) : List String :=
  [ "# 环境变量配置文件",
    "# 自动更新于: " ++ ts,
    "# ETH Mode - 使用原生 ETH 进行支付",
    "",
    "# ==================== 区块链配置 ====================",
    envLine kRpcUrl ((ev kRpcUrl).getD defaultRpcUrl),
    envLine kChainId ((ev kChainId).getD defaultChainId),
    "",
    "# ==================== 合约地址 (ETH 模式) ====================",
    envLine kPaymentEscrowAddr ((ev kPaymentEscrowAddr).getD ("")),
    envLine kRideOrderAddr ((ev kRideOrderAddr).getD ("")),
    envLine kUserRegistryAddr ((ev kUserRegistryAddr).getD ("")),
    envLine kRatingSystemAddr ((ev kRatingSystemAddr).getD ("")),
    envLine kDisputeResolutionAddr ((ev kDisputeResolutionAddr).getD ("")),
    "",
    "# ==================== 平台配置 ====================",
    envLine kPlatformWallet ((ev kPlatformWallet).getD ("")),
    envLine kPlatformFeeRate ((ev kPlatformFeeRate).getD defaultFeeRate) ]

/-- The success report printed on stdout (source lines 72 to 78); the
print call of line 73 starts with a newline, so it emits a blank line and
then the text. -/
def runStdout (ev : EnvMap) : List String :=
  [ "✓ .env 文件已更新",
    "",
    "更新的合约地址:",
    "  RIDE_ORDER_ADDRESS: " ++ (ev kRideOrderAddr).getD (""),
    "  PAYMENT_ESCROW_ADDRESS: " ++ (ev kPaymentEscrowAddr).getD (""),
    "  USER_REGISTRY_ADDRESS: " ++ (ev kUserRegistryAddr).getD (""),
    "  RATING_SYSTEM_ADDRESS: " ++ (ev kRatingSystemAddr).getD (""),
    "  DISPUTE_RESOLUTION_ADDRESS: " ++ (ev kDisputeResolutionAddr).getD ("") ]

def missingFileMsg : String := "❌ 未找到部署文件: deployments/localhost-latest.json"

/-- Observable outcome of one call to the synchronizer:
`ok newEnvLines stdout` means it returned True after rewriting `.env` to
`newEnvLines`; `noFile stdout` means it returned False (deployment file
missing) without touching `.env`; `keyError` means it raised KeyError on
the missing `contracts` key, before `.env` was opened for writing. -/
inductive RunResult where
  | ok (newEnvLines : List String) (stdout : List String)
  | noFile (stdout : List String)
  | keyError
deriving DecidableEq, Repr

/-- The `env_vars` dictionary after the read-existing-file step: empty when
`.env` does not exist (source line 29), otherwise the parsed contents. -/
def initEnvVars (envFile : Option (List String)) : EnvMap :=
  match envFile with
  | none => emptyMap
  | some lines => parseEnvLines lines

/-- The function `update_env_file` (source lines 12 to 80).
`deployment = none` models a missing deployment file (the
FileNotFoundError branch); `envFile = none` models an absent `.env`. -/
def update_env_file (ts : String) (deployment : Option DeploymentJson)
    (envFile : Option (List String)) : RunResult :=
  match deployment with
  | none => .noFile [missingFileMsg]
  | some dep =>
    match dep.contracts with
    | none => .keyError
    | some contracts =>
      let config := dep.configuration.getD emptyMap
      let env_vars := mergeEnvVars contracts config (initEnvVars envFile)
      .ok (writeEnvLines ts env_vars) (runStdout env_vars)

/-- The file-system state the script touches. -/
structure FsState where
  deployment : Option DeploymentJson
  envFile : Option (List String)

inductive MainOutcome where
  | exited (code : Nat)
  | uncaughtKeyError
deriving DecidableEq, Repr

/-- The main block (source lines 82 to 84): exit code 0 on success and 1 on
failure, with an uncaught KeyError terminating the process abnormally.
Only the `ok` outcome writes `.env`. -/
def runMain (ts : String) (st : FsState) : FsState × MainOutcome :=
  match update_env_file ts st.deployment st.envFile with
  | .ok out _ => ({ st with envFile := some out }, .exited 0)
  | .noFile _ => (st, .exited 1)
  | .keyError => (st, .uncaughtKeyError)

/-- The keys of the `KEY=VALUE` lines of a file, in file order (reading the
file back with the same line rule the program uses). -/
def kvKeys (lines : List String) : List String :=
  lines.filterMap (fun l => (lineEntry l).map (fun kv => kv.1))

/-- Last-occurrence-wins lookup over a list of key/value entries; used to
characterize `parseEnvLines`. -/
def lastWinsLookup (entries : List (String × String)) (k : String) : Option String :=
  (entries.reverse.find? (fun kv => kv.1 == k)).map (fun kv => kv.2)

/- Concrete fixtures for the witness theorems. -/

def addrR : String := "0xR"
def addrP : String := "0xP"
def addrU : String := "0xU"
def addrS : String := "0xS"
def addrD : String := "0xD"
def addrW : String := "0xW"
def tsOne : String := "T1"
def tsTwo : String := "T2"

/-- A concrete `contracts` object with all five addresses. -/
def cW : EnvMap := fun k =>
  if k = keyRideOrder then some addrR else
  if k = keyPaymentEscrow then some addrP else
  if k = keyUserRegistry then some addrU else
  if k = keyRatingSystem then some addrS else
  if k = keyDisputeResolution then some addrD else none

/-- A concrete `configuration` object with a platform wallet. -/
def cfgW : EnvMap := fun k => if k = keyPlatformWallet then some addrW else none

/-- A concrete `contracts` object whose `ratingSystem` key is absent. -/
def cMissing : EnvMap := fun k =>
  if k = keyRideOrder then some addrR else
  if k = keyPaymentEscrow then some addrP else none

/-- The first-run output used by the idempotence witness. -/
def out1W : List String := writeEnvLines tsOne (mergeEnvVars cW cfgW (initEnvVars none))

/-- The first-run stdout used by the idempotence witness. -/
def so1W : List String := runStdout (mergeEnvVars cW cfgW (initEnvVars none))


theorem stripRightL_eq_rdropWhile (l : List Char) :
    stripRightL l = List.rdropWhile pyIsSpace l := rfl

theorem stripRightL_append_cons (k : List Char) (c : Char) (v : List Char)
    (hc : pyIsSpace c = false) :
    stripRightL (k ++ c :: v) = k ++ c :: stripRightL v := by
  unfold stripRightL
  have h1 : (k ++ c :: v).reverse = v.reverse ++ (c :: k.reverse) := by
    simp
  rw [h1, List.dropWhile_append]
  by_cases h : (v.reverse.dropWhile pyIsSpace).isEmpty
  · rw [if_pos h]
    rw [List.isEmpty_iff] at h
    simp [h, List.dropWhile_cons, hc]
  · rw [if_neg h]
    simp [List.dropWhile_cons, hc]

theorem stripL_stripRightL (v : List Char) : stripL (stripRightL v) = stripL v := by
  unfold stripL
  rw [stripRightL_eq_rdropWhile, stripRightL_eq_rdropWhile, List.rdropWhile_idempotent]

theorem stripL_idem (l : List Char) : stripL (stripL l) = stripL l := by
  unfold stripL stripLeftL
  have hy : stripRightL (stripRightL l) = stripRightL l := by
    rw [stripRightL_eq_rdropWhile, stripRightL_eq_rdropWhile, List.rdropWhile_idempotent]
  set y := stripRightL l with hydef
  have key : stripRightL (y.dropWhile pyIsSpace) = y.dropWhile pyIsSpace := by
    rw [stripRightL_eq_rdropWhile]
    apply List.rdropWhile_eq_self_iff.mpr
    intro hne
    have hsuff : y.dropWhile pyIsSpace <:+ y := List.dropWhile_suffix _
    obtain ⟨t, ht⟩ := hsuff
    have hyne : y ≠ [] := by
      intro h0
      apply hne
      rw [h0]
      rfl
    have h2 := List.getLast?_eq_getLast y hyne
    have h3 := List.getLast?_eq_getLast (y.dropWhile pyIsSpace) hne
    have h4 : y.getLast? = (y.dropWhile pyIsSpace).getLast? := by
      conv_lhs => rw [← ht]
      rw [List.getLast?_append, h3, Option.or_some]
    have h5 : (y.dropWhile pyIsSpace).getLast hne = y.getLast hyne := by
      have h6 := h2.symm.trans (h4.trans h3)
      exact (Option.some.inj h6).symm
    rw [h5]
    have hself : List.rdropWhile pyIsSpace y = y := by
      rw [← stripRightL_eq_rdropWhile]; exact hy
    exact List.rdropWhile_eq_self_iff.mp hself hyne
  rw [key, List.dropWhile_idempotent]

theorem splitEqL_not_mem (l : List Char) (h : '=' ∉ l) : splitEqL l = none := by
  induction l with
  | nil => rfl
  | cons c t ih =>
    have h1 : ¬('=' = c ∨ '=' ∈ t) := by simpa using h
    push_neg at h1
    have hc : (c == '=') = false := by
      simp only [beq_eq_false_iff_ne]
      exact fun hcc => h1.1 hcc.symm
    simp [splitEqL, hc, ih h1.2]

theorem splitEqL_append (k v : List Char) (hk : '=' ∉ k) :
    splitEqL (k ++ '=' :: v) = some (k, v) := by
  induction k with
  | nil => simp [splitEqL]
  | cons c t ih =>
    have h1 : ¬('=' = c ∨ '=' ∈ t) := by simpa using hk
    push_neg at h1
    have hc : (c == '=') = false := by
      simp only [beq_eq_false_iff_ne]
      exact fun hcc => h1.1 hcc.symm
    simp [splitEqL, hc, ih h1.2]

theorem lineEntryL_keyline (c : Char) (k v : List Char)
    (hsp : pyIsSpace c = false) (hhash : c ≠ '#')
    (hk : '=' ∉ c :: k) :
    lineEntryL ((c :: k) ++ '=' :: v) = some (stripL (c :: k), stripL v) := by
  have h1 : stripL ((c :: k) ++ '=' :: v) = c :: (k ++ '=' :: stripRightL v) := by
    unfold stripL
    rw [stripRightL_append_cons (c :: k) '=' v (by decide)]
    unfold stripLeftL
    simp [List.dropWhile_cons, hsp]
  have h2 : splitEqL (c :: (k ++ '=' :: stripRightL v)) = some (c :: k, stripRightL v) := by
    have := splitEqL_append (c :: k) (stripRightL v) hk
    simpa using this
  simp only [lineEntryL]
  rw [h1]
  simp [h2, hhash, stripL_stripRightL]

theorem lineEntryL_hash (l : List Char) : lineEntryL ('#' :: l) = none := by
  have hsp : pyIsSpace '#' = false := rfl
  have h1 : stripL ('#' :: l) = '#' :: stripRightL l := by
    unfold stripL
    have h0 := stripRightL_append_cons [] '#' l hsp
    simp only [List.nil_append] at h0
    rw [h0]
    unfold stripLeftL
    simp [List.dropWhile_cons, hsp]
  simp only [lineEntryL]
  rw [h1]
  simp


theorem lineEntry_envLine (K v : String) (c : Char) (k : List Char)
    (hK : K.data = c :: k) (hsp : pyIsSpace c = false) (hhash : c ≠ '#')
    (hk : '=' ∉ c :: k) (hstr : stripL (c :: k) = c :: k) :
    lineEntry (envLine K v) = some (K, pyStrip v) := by
  unfold lineEntry envLine
  have hdata : (K ++ "=" ++ v).data = (c :: k) ++ '=' :: v.data := by
    rw [String.data_append, String.data_append, hK, List.append_assoc]
    rfl
  rw [hdata, lineEntryL_keyline c k v.data hsp hhash hk, hstr]
  have hmk : String.mk (c :: k) = K := by
    rw [← hK]
  simp [hmk, pyStrip]

theorem lineEntry_rpc (v : String) :
    lineEntry (envLine kRpcUrl v) = some (kRpcUrl, pyStrip v) :=
  lineEntry_envLine kRpcUrl v 'R' ("PC_URL".data) rfl (by decide) (by decide)
    (by decide) (by decide)

theorem lineEntry_chain (v : String) :
    lineEntry (envLine kChainId v) = some (kChainId, pyStrip v) :=
  lineEntry_envLine kChainId v 'C' ("HAIN_ID".data) rfl (by decide) (by decide)
    (by decide) (by decide)

theorem lineEntry_pay (v : String) :
    lineEntry (envLine kPaymentEscrowAddr v) = some (kPaymentEscrowAddr, pyStrip v) :=
  lineEntry_envLine kPaymentEscrowAddr v 'P' ("AYMENT_ESCROW_ADDRESS".data) rfl (by decide)
    (by decide) (by decide) (by decide)

theorem lineEntry_ride (v : String) :
    lineEntry (envLine kRideOrderAddr v) = some (kRideOrderAddr, pyStrip v) :=
  lineEntry_envLine kRideOrderAddr v 'R' ("IDE_ORDER_ADDRESS".data) rfl (by decide)
    (by decide) (by decide) (by decide)

theorem lineEntry_user (v : String) :
    lineEntry (envLine kUserRegistryAddr v) = some (kUserRegistryAddr, pyStrip v) :=
  lineEntry_envLine kUserRegistryAddr v 'U' ("SER_REGISTRY_ADDRESS".data) rfl (by decide)
    (by decide) (by decide) (by decide)

theorem lineEntry_rating (v : String) :
    lineEntry (envLine kRatingSystemAddr v) = some (kRatingSystemAddr, pyStrip v) :=
  lineEntry_envLine kRatingSystemAddr v 'R' ("ATING_SYSTEM_ADDRESS".data) rfl (by decide)
    (by decide) (by decide) (by decide)

theorem lineEntry_dispute (v : String) :
    lineEntry (envLine kDisputeResolutionAddr v) = some (kDisputeResolutionAddr, pyStrip v) :=
  lineEntry_envLine kDisputeResolutionAddr v 'D' ("ISPUTE_RESOLUTION_ADDRESS".data) rfl
    (by decide) (by decide) (by decide) (by decide)

theorem lineEntry_wallet (v : String) :
    lineEntry (envLine kPlatformWallet v) = some (kPlatformWallet, pyStrip v) :=
  lineEntry_envLine kPlatformWallet v 'P' ("LATFORM_WALLET".data) rfl (by decide)
    (by decide) (by decide) (by decide)

theorem lineEntry_fee (v : String) :
    lineEntry (envLine kPlatformFeeRate v) = some (kPlatformFeeRate, pyStrip v) :=
  lineEntry_envLine kPlatformFeeRate v 'P' ("LATFORM_FEE_RATE".data) rfl (by decide)
    (by decide) (by decide) (by decide)

theorem lineEntry_tsline (ts : String) :
    lineEntry ("# 自动更新于: " ++ ts) = none := by
  unfold lineEntry
  have hdata : (("# 自动更新于: " : String) ++ ts).data = '#' :: (" 自动更新于: ".data ++ ts.data) := by
    rw [String.data_append]
    rfl
  rw [hdata, lineEntryL_hash]
  rfl

theorem lineEntry_header1 : lineEntry ("# 环境变量配置文件") = none := by decide

theorem lineEntry_header3 : lineEntry ("# ETH Mode - 使用原生 ETH 进行支付") = none := by decide

theorem lineEntry_empty : lineEntry ("") = none := by decide

theorem lineEntry_banner1 :
    lineEntry ("# ==================== 区块链配置 ====================") = none := by decide

theorem lineEntry_banner2 :
    lineEntry ("# ==================== 合约地址 (ETH 模式) ====================") = none := by decide

theorem lineEntry_banner3 :
    lineEntry ("# ==================== 平台配置 ====================") = none := by decide

theorem kvKeys_write (ts : String) (ev : EnvMap) :
    kvKeys (writeEnvLines ts ev) =
      [kRpcUrl, kChainId, kPaymentEscrowAddr, kRideOrderAddr, kUserRegistryAddr,
       kRatingSystemAddr, kDisputeResolutionAddr, kPlatformWallet, kPlatformFeeRate] := by
  simp [kvKeys, writeEnvLines, lineEntry_tsline, lineEntry_header1, lineEntry_header3,
    lineEntry_empty, lineEntry_banner1, lineEntry_banner2, lineEntry_banner3,
    lineEntry_rpc, lineEntry_chain, lineEntry_pay, lineEntry_ride, lineEntry_user,
    lineEntry_rating, lineEntry_dispute, lineEntry_wallet, lineEntry_fee]


theorem update_ok (ts : String) (c : EnvMap) (cfgOpt : Option EnvMap)
    (env : Option (List String)) :
    update_env_file ts (some ⟨some c, cfgOpt⟩) env =
      .ok (writeEnvLines ts (mergeEnvVars c (cfgOpt.getD emptyMap) (initEnvVars env)))
        (runStdout (mergeEnvVars c (cfgOpt.getD emptyMap) (initEnvVars env))) := rfl

theorem merge_ride (c cfg m : EnvMap) :
    mergeEnvVars c cfg m kRideOrderAddr = some ((c keyRideOrder).getD ("")) := by
  simp +decide [mergeEnvVars, dictInsert, ite_apply]

theorem merge_pay (c cfg m : EnvMap) :
    mergeEnvVars c cfg m kPaymentEscrowAddr = some ((c keyPaymentEscrow).getD ("")) := by
  simp +decide [mergeEnvVars, dictInsert, ite_apply]

theorem merge_user (c cfg m : EnvMap) :
    mergeEnvVars c cfg m kUserRegistryAddr = some ((c keyUserRegistry).getD ("")) := by
  simp +decide [mergeEnvVars, dictInsert, ite_apply]

theorem merge_rating (c cfg m : EnvMap) :
    mergeEnvVars c cfg m kRatingSystemAddr = some ((c keyRatingSystem).getD ("")) := by
  simp +decide [mergeEnvVars, dictInsert, ite_apply]

theorem merge_dispute (c cfg m : EnvMap) :
    mergeEnvVars c cfg m kDisputeResolutionAddr = some ((c keyDisputeResolution).getD ("")) := by
  simp +decide [mergeEnvVars, dictInsert, ite_apply]

theorem merge_wallet (c cfg m : EnvMap) :
    mergeEnvVars c cfg m kPlatformWallet = some ((cfg keyPlatformWallet).getD ("")) := by
  simp +decide [mergeEnvVars, dictInsert, ite_apply]

theorem merge_rpc (c cfg m : EnvMap) :
    mergeEnvVars c cfg m kRpcUrl = some ((m kRpcUrl).getD defaultRpcUrl) := by
  cases hm : m kRpcUrl <;>
    simp +decide [mergeEnvVars, dictInsert, ite_apply, hm]

theorem merge_chain (c cfg m : EnvMap) :
    mergeEnvVars c cfg m kChainId = some ((m kChainId).getD defaultChainId) := by
  cases hm : m kChainId <;>
    simp +decide [mergeEnvVars, dictInsert, ite_apply, hm]

theorem merge_fee (c cfg m : EnvMap) :
    mergeEnvVars c cfg m kPlatformFeeRate = some ((m kPlatformFeeRate).getD defaultFeeRate) := by
  cases hm : m kPlatformFeeRate <;>
    simp +decide [mergeEnvVars, dictInsert, ite_apply, hm]


theorem lineEntryL_snd_stripped (raw : List Char) (p : List Char × List Char)
    (h : lineEntryL raw = some p) : stripL p.2 = p.2 := by
  simp only [lineEntryL] at h
  by_cases hb : stripL raw = []
  · rw [if_pos hb] at h
    exact absurd h (by simp)
  · rw [if_neg hb] at h
    by_cases hh : (stripL raw).head? = some '#'
    · rw [if_pos hh] at h
      exact absurd h (by simp)
    · rw [if_neg hh] at h
      cases hs : splitEqL (stripL raw) with
      | none => rw [hs] at h; exact absurd h (by simp)
      | some ab =>
        rw [hs] at h
        have h2 : (stripL ab.1, stripL ab.2) = p := Option.some.inj h
        have h3 : p.2 = stripL ab.2 := by rw [← h2]
        rw [h3, stripL_idem]

theorem lineEntry_snd_stripped (l : String) (kv : String × String)
    (h : lineEntry l = some kv) : pyStrip kv.2 = kv.2 := by
  unfold lineEntry at h
  cases he : lineEntryL l.data with
  | none => rw [he] at h; exact absurd h (by simp)
  | some p =>
    rw [he] at h
    have h1 : (String.mk p.1, String.mk p.2) = kv := Option.some.inj h
    have h2 : kv.2 = String.mk p.2 := by rw [← h1]
    have h4 := lineEntryL_snd_stripped l.data p he
    rw [h2]
    show String.mk (stripL p.2) = String.mk p.2
    rw [h4]

theorem parse_foldl_lastWins (lines : List String) (m : EnvMap) (k : String) :
    (lines.foldl (fun acc l =>
        match lineEntry l with
        | some kv => dictInsert acc kv.1 kv.2
        | none => acc) m) k
      = (lastWinsLookup (lines.filterMap lineEntry) k).or (m k) := by
  induction lines generalizing m with
  | nil => simp [lastWinsLookup]
  | cons l ls ih =>
    simp only [List.foldl_cons, List.filterMap_cons]
    cases he : lineEntry l with
    | none => simp only [he]; rw [ih]
    | some kv =>
      simp only [he]
      rw [ih]
      have hB : dictInsert m kv.1 kv.2 k
          = ((List.find? (fun e => e.1 == k) [kv]).map (fun e => e.2)).or (m k) := by
        by_cases h : k = kv.1
        · subst h
          simp [dictInsert, List.find?]
        · have hne : (kv.1 == k) = false := by
            simp only [beq_eq_false_iff_ne]
            exact fun hh => h hh.symm
          simp [dictInsert, h, List.find?, hne]
      rw [hB]
      unfold lastWinsLookup
      rw [List.reverse_cons, List.find?_append]
      rw [show ∀ x y : Option (String × String),
            (x.or y).map (fun e : String × String => e.2)
              = (x.map (fun e => e.2)).or (y.map (fun e => e.2)) from ?_, Option.or_assoc]
      intro x y
      cases x <;> simp


theorem parse_stripped (lines : List String) (k v : String)
    (h : parseEnvLines lines k = some v) : pyStrip v = v := by
  unfold parseEnvLines at h
  rw [parse_foldl_lastWins] at h
  rw [show emptyMap k = none from rfl, Option.or_none] at h
  unfold lastWinsLookup at h
  cases hf : List.find? (fun kv => kv.1 == k) (lines.filterMap lineEntry).reverse with
  | none => rw [hf] at h; exact absurd h (by simp)
  | some e =>
    rw [hf] at h
    have h1 : e.2 = v := by simpa using h
    have h2 : e ∈ (lines.filterMap lineEntry).reverse := List.mem_of_find?_eq_some hf
    rw [List.mem_reverse] at h2
    rw [List.mem_filterMap] at h2
    obtain ⟨l, _, hl⟩ := h2
    rw [← h1]
    exact lineEntry_snd_stripped l e hl

theorem parse_write_rpc (ts : String) (ev : EnvMap) :
    parseEnvLines (writeEnvLines ts ev) kRpcUrl
      = some (pyStrip ((ev kRpcUrl).getD defaultRpcUrl)) := by
  simp +decide [parseEnvLines, writeEnvLines, List.foldl_cons, List.foldl_nil,
    lineEntry_tsline, lineEntry_header1, lineEntry_header3, lineEntry_empty,
    lineEntry_banner1, lineEntry_banner2, lineEntry_banner3,
    lineEntry_rpc, lineEntry_chain, lineEntry_pay, lineEntry_ride, lineEntry_user,
    lineEntry_rating, lineEntry_dispute, lineEntry_wallet, lineEntry_fee,
    dictInsert, emptyMap]

theorem parse_write_chain (ts : String) (ev : EnvMap) :
    parseEnvLines (writeEnvLines ts ev) kChainId
      = some (pyStrip ((ev kChainId).getD defaultChainId)) := by
  simp +decide [parseEnvLines, writeEnvLines, List.foldl_cons, List.foldl_nil,
    lineEntry_tsline, lineEntry_header1, lineEntry_header3, lineEntry_empty,
    lineEntry_banner1, lineEntry_banner2, lineEntry_banner3,
    lineEntry_rpc, lineEntry_chain, lineEntry_pay, lineEntry_ride, lineEntry_user,
    lineEntry_rating, lineEntry_dispute, lineEntry_wallet, lineEntry_fee,
    dictInsert, emptyMap]

theorem parse_write_fee (ts : String) (ev : EnvMap) :
    parseEnvLines (writeEnvLines ts ev) kPlatformFeeRate
      = some (pyStrip ((ev kPlatformFeeRate).getD defaultFeeRate)) := by
  simp +decide [parseEnvLines, writeEnvLines, List.foldl_cons, List.foldl_nil,
    lineEntry_tsline, lineEntry_header1, lineEntry_header3, lineEntry_empty,
    lineEntry_banner1, lineEntry_banner2, lineEntry_banner3,
    lineEntry_rpc, lineEntry_chain, lineEntry_pay, lineEntry_ride, lineEntry_user,
    lineEntry_rating, lineEntry_dispute, lineEntry_wallet, lineEntry_fee,
    dictInsert, emptyMap]


theorem initEnvVars_some (lines : List String) :
    initEnvVars (some lines) = parseEnvLines lines := rfl

theorem initEnvVars_stripped (env : Option (List String)) (k v : String)
    (h : initEnvVars env k = some v) : pyStrip v = v := by
  cases env with
  | none => exact absurd h (by simp [initEnvVars, emptyMap])
  | some ls => exact parse_stripped ls k v h

theorem getD_stripped (env : Option (List String)) (k d : String)
    (hd : pyStrip d = d) :
    pyStrip ((initEnvVars env k).getD d) = (initEnvVars env k).getD d := by
  cases hm : initEnvVars env k with
  | none => simpa using hd
  | some v => simpa using initEnvVars_stripped env k v hm

theorem reparse_agrees (ts1 : String) (c cfg : EnvMap) (env0 : Option (List String))
    (q : String)
    (hq : q ∈ ([kRideOrderAddr, kPaymentEscrowAddr, kUserRegistryAddr, kRatingSystemAddr,
        kDisputeResolutionAddr, kPlatformWallet, kRpcUrl, kChainId,
        kPlatformFeeRate] : List String)) :
    mergeEnvVars c cfg
        (parseEnvLines (writeEnvLines ts1 (mergeEnvVars c cfg (initEnvVars env0)))) q
      = mergeEnvVars c cfg (initEnvVars env0) q := by
  simp only [List.mem_cons, List.not_mem_nil, or_false] at hq
  rcases hq with h|h|h|h|h|h|h|h|h <;> subst h
  · rw [merge_ride, merge_ride]
  · rw [merge_pay, merge_pay]
  · rw [merge_user, merge_user]
  · rw [merge_rating, merge_rating]
  · rw [merge_dispute, merge_dispute]
  · rw [merge_wallet, merge_wallet]
  · rw [merge_rpc, parse_write_rpc, Option.getD_some, merge_rpc, Option.getD_some]
    exact congrArg some (getD_stripped env0 kRpcUrl defaultRpcUrl (by decide))
  · rw [merge_chain, parse_write_chain, Option.getD_some, merge_chain, Option.getD_some]
    exact congrArg some (getD_stripped env0 kChainId defaultChainId (by decide))
  · rw [merge_fee, parse_write_fee, Option.getD_some, merge_fee, Option.getD_some]
    exact congrArg some (getD_stripped env0 kPlatformFeeRate defaultFeeRate (by decide))


/-- Claim C1: for every deployment record containing all five contract
addresses and a platform wallet, with no pre-existing `.env`, the
synchronizer writes a file whose key-value content is exactly the five
address keys bound to those addresses, `PLATFORM_WALLET` bound to the
wallet, and the three defaults for `RPC_URL`, `CHAIN_ID` and
`PLATFORM_FEE_RATE`, with no other keys (the conclusion pins the entire
written file and stdout). -/
theorem fresh_env_exact_content (ts a1 a2 a3 a4 a5 w : String) (c cfg : EnvMap)
    (h1 : c keyRideOrder = some a1) (h2 : c keyPaymentEscrow = some a2)
    (h3 : c keyUserRegistry = some a3) (h4 : c keyRatingSystem = some a4)
    (h5 : c keyDisputeResolution = some a5) (hw : cfg keyPlatformWallet = some w) :
    update_env_file ts (some ⟨some c, some cfg⟩) none =
      .ok
        [ "# 环境变量配置文件",
          "# 自动更新于: " ++ ts,
          "# ETH Mode - 使用原生 ETH 进行支付",
          "",
          "# ==================== 区块链配置 ====================",
          envLine kRpcUrl defaultRpcUrl,
          envLine kChainId defaultChainId,
          "",
          "# ==================== 合约地址 (ETH 模式) ====================",
          envLine kPaymentEscrowAddr a2,
          envLine kRideOrderAddr a1,
          envLine kUserRegistryAddr a3,
          envLine kRatingSystemAddr a4,
          envLine kDisputeResolutionAddr a5,
          "",
          "# ==================== 平台配置 ====================",
          envLine kPlatformWallet w,
          envLine kPlatformFeeRate defaultFeeRate ]
        [ "✓ .env 文件已更新",
          "",
          "更新的合约地址:",
          "  RIDE_ORDER_ADDRESS: " ++ a1,
          "  PAYMENT_ESCROW_ADDRESS: " ++ a2,
          "  USER_REGISTRY_ADDRESS: " ++ a3,
          "  RATING_SYSTEM_ADDRESS: " ++ a4,
          "  DISPUTE_RESOLUTION_ADDRESS: " ++ a5 ] := by
  rw [update_ok]
  have e1 := merge_ride c cfg (initEnvVars none)
  have e2 := merge_pay c cfg (initEnvVars none)
  have e3 := merge_user c cfg (initEnvVars none)
  have e4 := merge_rating c cfg (initEnvVars none)
  have e5 := merge_dispute c cfg (initEnvVars none)
  have e6 := merge_wallet c cfg (initEnvVars none)
  have e7 := merge_rpc c cfg (initEnvVars none)
  have e8 := merge_chain c cfg (initEnvVars none)
  have e9 := merge_fee c cfg (initEnvVars none)
  rw [h1] at e1
  rw [h2] at e2
  rw [h3] at e3
  rw [h4] at e4
  rw [h5] at e5
  rw [hw] at e6
  simp only [Option.getD_some] at e1 e2 e3 e4 e5 e6
  simp only [writeEnvLines, runStdout, Option.getD_some]
  rw [e1, e2, e3, e4, e5, e6, e7, e8, e9]
  simp [initEnvVars, emptyMap]


/-- Claim C2: the merge is asymmetric. For every pre-existing `.env` and
every deployment record, the five contract-address keys and
`PLATFORM_WALLET` take their values from the deployment record regardless
of prior `.env` content, while `RPC_URL`, `CHAIN_ID` and
`PLATFORM_FEE_RATE` keep their prior parsed values whenever present and
receive the fixed defaults only when absent (expressed with `Option.getD`,
which covers both cases at once); the written `CHAIN_ID` line carries that
merged value. -/
theorem merge_is_asymmetric (ts : String) (c : EnvMap) (cfgOpt : Option EnvMap)
    (ls : List String) :
    update_env_file ts (some ⟨some c, cfgOpt⟩) (some ls) =
      .ok (writeEnvLines ts (mergeEnvVars c (cfgOpt.getD emptyMap) (parseEnvLines ls)))
        (runStdout (mergeEnvVars c (cfgOpt.getD emptyMap) (parseEnvLines ls))) ∧
    mergeEnvVars c (cfgOpt.getD emptyMap) (parseEnvLines ls) kRideOrderAddr
      = some ((c keyRideOrder).getD ("")) ∧
    mergeEnvVars c (cfgOpt.getD emptyMap) (parseEnvLines ls) kPaymentEscrowAddr
      = some ((c keyPaymentEscrow).getD ("")) ∧
    mergeEnvVars c (cfgOpt.getD emptyMap) (parseEnvLines ls) kUserRegistryAddr
      = some ((c keyUserRegistry).getD ("")) ∧
    mergeEnvVars c (cfgOpt.getD emptyMap) (parseEnvLines ls) kRatingSystemAddr
      = some ((c keyRatingSystem).getD ("")) ∧
    mergeEnvVars c (cfgOpt.getD emptyMap) (parseEnvLines ls) kDisputeResolutionAddr
      = some ((c keyDisputeResolution).getD ("")) ∧
    mergeEnvVars c (cfgOpt.getD emptyMap) (parseEnvLines ls) kPlatformWallet
      = some (((cfgOpt.getD emptyMap) keyPlatformWallet).getD ("")) ∧
    mergeEnvVars c (cfgOpt.getD emptyMap) (parseEnvLines ls) kRpcUrl
      = some ((parseEnvLines ls kRpcUrl).getD defaultRpcUrl) ∧
    mergeEnvVars c (cfgOpt.getD emptyMap) (parseEnvLines ls) kChainId
      = some ((parseEnvLines ls kChainId).getD defaultChainId) ∧
    mergeEnvVars c (cfgOpt.getD emptyMap) (parseEnvLines ls) kPlatformFeeRate
      = some ((parseEnvLines ls kPlatformFeeRate).getD defaultFeeRate) ∧
    (writeEnvLines ts (mergeEnvVars c (cfgOpt.getD emptyMap) (parseEnvLines ls))).get? 6
      = some (envLine kChainId ((parseEnvLines ls kChainId).getD defaultChainId)) := by
  refine ⟨update_ok ts c cfgOpt (some ls), merge_ride c _ _, merge_pay c _ _,
    merge_user c _ _, merge_rating c _ _, merge_dispute c _ _, merge_wallet c _ _,
    merge_rpc c _ _, merge_chain c _ _, merge_fee c _ _, ?_⟩
  show some (envLine kChainId
      ((mergeEnvVars c (cfgOpt.getD emptyMap) (parseEnvLines ls) kChainId).getD defaultChainId))
    = some (envLine kChainId ((parseEnvLines ls kChainId).getD defaultChainId))
  rw [merge_chain, Option.getD_some]

/-- Claim C3, counterexample: on a concrete full deployment the keys of the
written file appear in the order `RPC_URL`, `CHAIN_ID`,
`PAYMENT_ESCROW_ADDRESS`, `RIDE_ORDER_ADDRESS`, ... — not in the order the
claim states (with `RIDE_ORDER_ADDRESS` first in the address section), so
the claimed key order is false. -/
theorem address_section_order_counterexample :
    update_env_file tsOne (some ⟨some cW, some cfgW⟩) none =
      .ok (writeEnvLines tsOne (mergeEnvVars cW cfgW (initEnvVars none)))
        (runStdout (mergeEnvVars cW cfgW (initEnvVars none))) ∧
    kvKeys (writeEnvLines tsOne (mergeEnvVars cW cfgW (initEnvVars none))) ≠
      ["RPC_URL", "CHAIN_ID", "RIDE_ORDER_ADDRESS", "PAYMENT_ESCROW_ADDRESS",
       "USER_REGISTRY_ADDRESS", "RATING_SYSTEM_ADDRESS", "DISPUTE_RESOLUTION_ADDRESS",
       "PLATFORM_WALLET", "PLATFORM_FEE_RATE"] :=
  ⟨rfl, by decide⟩

/-- Claim C3, amended: the written file always consists of the fixed
3-line header, a blank line, and three banner-separated sections whose
`KEY=VALUE` lines appear in the fixed order `RPC_URL`, `CHAIN_ID`, then
`PAYMENT_ESCROW_ADDRESS`, `RIDE_ORDER_ADDRESS`, `USER_REGISTRY_ADDRESS`,
`RATING_SYSTEM_ADDRESS`, `DISPUTE_RESOLUTION_ADDRESS`, then
`PLATFORM_WALLET`, `PLATFORM_FEE_RATE` (the source writes the payment
escrow line before the ride order line, unlike the order claimed). -/
theorem file_layout_fixed (ts : String) (c : EnvMap) (cfgOpt : Option EnvMap)
    (env : Option (List String)) :
    update_env_file ts (some ⟨some c, cfgOpt⟩) env =
      .ok (writeEnvLines ts (mergeEnvVars c (cfgOpt.getD emptyMap) (initEnvVars env)))
        (runStdout (mergeEnvVars c (cfgOpt.getD emptyMap) (initEnvVars env))) ∧
    (writeEnvLines ts (mergeEnvVars c (cfgOpt.getD emptyMap) (initEnvVars env))).length = 18 ∧
    (writeEnvLines ts (mergeEnvVars c (cfgOpt.getD emptyMap) (initEnvVars env))).take 5 =
      [ "# 环境变量配置文件",
        "# 自动更新于: " ++ ts,
        "# ETH Mode - 使用原生 ETH 进行支付",
        "",
        "# ==================== 区块链配置 ====================" ] ∧
    (writeEnvLines ts (mergeEnvVars c (cfgOpt.getD emptyMap) (initEnvVars env))).get? 7
      = some ("") ∧
    (writeEnvLines ts (mergeEnvVars c (cfgOpt.getD emptyMap) (initEnvVars env))).get? 8
      = some ("# ==================== 合约地址 (ETH 模式) ====================") ∧
    (writeEnvLines ts (mergeEnvVars c (cfgOpt.getD emptyMap) (initEnvVars env))).get? 14
      = some ("") ∧
    (writeEnvLines ts (mergeEnvVars c (cfgOpt.getD emptyMap) (initEnvVars env))).get? 15
      = some ("# ==================== 平台配置 ====================") ∧
    kvKeys (writeEnvLines ts (mergeEnvVars c (cfgOpt.getD emptyMap) (initEnvVars env))) =
      ["RPC_URL", "CHAIN_ID", "PAYMENT_ESCROW_ADDRESS", "RIDE_ORDER_ADDRESS",
       "USER_REGISTRY_ADDRESS", "RATING_SYSTEM_ADDRESS", "DISPUTE_RESOLUTION_ADDRESS",
       "PLATFORM_WALLET", "PLATFORM_FEE_RATE"] := by
  refine ⟨update_ok ts c cfgOpt env, rfl, rfl, rfl, rfl, rfl, rfl, ?_⟩
  rw [kvKeys_write]
  decide

/-- Claim C4: when the deployment file does not exist, the synchronizer
prints the failure message and returns False without touching `.env`, and
the process exits with code 1 leaving the file-system state unchanged. -/
theorem missing_deployment_noop (ts : String) (env : Option (List String)) :
    update_env_file ts none env = .noFile [missingFileMsg] ∧
    runMain ts ⟨none, env⟩ = (⟨none, env⟩, .exited 1) :=
  ⟨rfl, rfl⟩

/-- Claim C5: idempotence. If a run with an unchanged deployment record
produced `.env` lines `out1`, a second run over `out1` produces exactly
`out1` with only line 1 (the timestamp line) replaced, and the same
stdout. -/
theorem rerun_identical_except_timestamp (ts1 ts2 : String) (c : EnvMap)
    (cfgOpt : Option EnvMap) (env0 : Option (List String)) (out1 so1 : List String)
    (h : update_env_file ts1 (some ⟨some c, cfgOpt⟩) env0 = .ok out1 so1) :
    update_env_file ts2 (some ⟨some c, cfgOpt⟩) (some out1)
      = .ok (out1.set 1 ("# 自动更新于: " ++ ts2)) so1 := by
  rw [update_ok] at h
  injection h with hW hS
  subst hW
  subst hS
  rw [update_ok, initEnvVars_some]
  have e1 := reparse_agrees ts1 c (cfgOpt.getD emptyMap) env0 kRideOrderAddr (by decide)
  have e2 := reparse_agrees ts1 c (cfgOpt.getD emptyMap) env0 kPaymentEscrowAddr (by decide)
  have e3 := reparse_agrees ts1 c (cfgOpt.getD emptyMap) env0 kUserRegistryAddr (by decide)
  have e4 := reparse_agrees ts1 c (cfgOpt.getD emptyMap) env0 kRatingSystemAddr (by decide)
  have e5 := reparse_agrees ts1 c (cfgOpt.getD emptyMap) env0 kDisputeResolutionAddr (by decide)
  have e6 := reparse_agrees ts1 c (cfgOpt.getD emptyMap) env0 kPlatformWallet (by decide)
  have e7 := reparse_agrees ts1 c (cfgOpt.getD emptyMap) env0 kRpcUrl (by decide)
  have e8 := reparse_agrees ts1 c (cfgOpt.getD emptyMap) env0 kChainId (by decide)
  have e9 := reparse_agrees ts1 c (cfgOpt.getD emptyMap) env0 kPlatformFeeRate (by decide)
  generalize hP : parseEnvLines
      (writeEnvLines ts1 (mergeEnvVars c (cfgOpt.getD emptyMap) (initEnvVars env0))) = P
  rw [hP] at e1 e2 e3 e4 e5 e6 e7 e8 e9
  simp only [writeEnvLines, runStdout, List.set, e1, e2, e3, e4, e5, e6, e7, e8, e9]


/-- Claim C6: when the deployment record lacks one of the five recognized
contract keys, the corresponding output key is still written, bound to the
empty string rather than omitted; likewise `PLATFORM_WALLET` is written
empty when `configuration` or `configuration.platformWallet` is absent. -/
theorem absent_keys_written_empty (ts : String) (c : EnvMap) (cfgOpt : Option EnvMap)
    (env : Option (List String)) :
    update_env_file ts (some ⟨some c, cfgOpt⟩) env =
      .ok (writeEnvLines ts (mergeEnvVars c (cfgOpt.getD emptyMap) (initEnvVars env)))
        (runStdout (mergeEnvVars c (cfgOpt.getD emptyMap) (initEnvVars env))) ∧
    (c keyPaymentEscrow = none →
      (writeEnvLines ts (mergeEnvVars c (cfgOpt.getD emptyMap) (initEnvVars env))).get? 9
        = some ("PAYMENT_ESCROW_ADDRESS=")) ∧
    (c keyRideOrder = none →
      (writeEnvLines ts (mergeEnvVars c (cfgOpt.getD emptyMap) (initEnvVars env))).get? 10
        = some ("RIDE_ORDER_ADDRESS=")) ∧
    (c keyUserRegistry = none →
      (writeEnvLines ts (mergeEnvVars c (cfgOpt.getD emptyMap) (initEnvVars env))).get? 11
        = some ("USER_REGISTRY_ADDRESS=")) ∧
    (c keyRatingSystem = none →
      (writeEnvLines ts (mergeEnvVars c (cfgOpt.getD emptyMap) (initEnvVars env))).get? 12
        = some ("RATING_SYSTEM_ADDRESS=")) ∧
    (c keyDisputeResolution = none →
      (writeEnvLines ts (mergeEnvVars c (cfgOpt.getD emptyMap) (initEnvVars env))).get? 13
        = some ("DISPUTE_RESOLUTION_ADDRESS=")) ∧
    ((cfgOpt.getD emptyMap) keyPlatformWallet = none →
      (writeEnvLines ts (mergeEnvVars c (cfgOpt.getD emptyMap) (initEnvVars env))).get? 16
        = some ("PLATFORM_WALLET=")) := by
  refine ⟨update_ok ts c cfgOpt env, ?_, ?_, ?_, ?_, ?_, ?_⟩
  · intro h
    show some (envLine kPaymentEscrowAddr
        ((mergeEnvVars c (cfgOpt.getD emptyMap) (initEnvVars env) kPaymentEscrowAddr).getD ("")))
      = some ("PAYMENT_ESCROW_ADDRESS=")
    rw [merge_pay, h]
    decide
  · intro h
    show some (envLine kRideOrderAddr
        ((mergeEnvVars c (cfgOpt.getD emptyMap) (initEnvVars env) kRideOrderAddr).getD ("")))
      = some ("RIDE_ORDER_ADDRESS=")
    rw [merge_ride, h]
    decide
  · intro h
    show some (envLine kUserRegistryAddr
        ((mergeEnvVars c (cfgOpt.getD emptyMap) (initEnvVars env) kUserRegistryAddr).getD ("")))
      = some ("USER_REGISTRY_ADDRESS=")
    rw [merge_user, h]
    decide
  · intro h
    show some (envLine kRatingSystemAddr
        ((mergeEnvVars c (cfgOpt.getD emptyMap) (initEnvVars env) kRatingSystemAddr).getD ("")))
      = some ("RATING_SYSTEM_ADDRESS=")
    rw [merge_rating, h]
    decide
  · intro h
    show some (envLine kDisputeResolutionAddr
        ((mergeEnvVars c (cfgOpt.getD emptyMap) (initEnvVars env) kDisputeResolutionAddr).getD ("")))
      = some ("DISPUTE_RESOLUTION_ADDRESS=")
    rw [merge_dispute, h]
    decide
  · intro h
    show some (envLine kPlatformWallet
        ((mergeEnvVars c (cfgOpt.getD emptyMap) (initEnvVars env) kPlatformWallet).getD ("")))
      = some ("PLATFORM_WALLET=")
    rw [merge_wallet, h]
    decide

/-- Claim C7: the rewritten file's `KEY=VALUE` keys are always exactly the
nine recognized keys, so any other key present in a prior `.env` (such as
`FOO`) is absent from the output: the rewrite is not a round-trip
merge. -/
theorem only_recognized_keys_survive (ts : String) (c : EnvMap) (cfgOpt : Option EnvMap)
    (env : Option (List String)) :
    update_env_file ts (some ⟨some c, cfgOpt⟩) env =
      .ok (writeEnvLines ts (mergeEnvVars c (cfgOpt.getD emptyMap) (initEnvVars env)))
        (runStdout (mergeEnvVars c (cfgOpt.getD emptyMap) (initEnvVars env))) ∧
    kvKeys (writeEnvLines ts (mergeEnvVars c (cfgOpt.getD emptyMap) (initEnvVars env))) =
      ["RPC_URL", "CHAIN_ID", "PAYMENT_ESCROW_ADDRESS", "RIDE_ORDER_ADDRESS",
       "USER_REGISTRY_ADDRESS", "RATING_SYSTEM_ADDRESS", "DISPUTE_RESOLUTION_ADDRESS",
       "PLATFORM_WALLET", "PLATFORM_FEE_RATE"] ∧
    ("FOO" : String) ∉
      kvKeys (writeEnvLines ts (mergeEnvVars c (cfgOpt.getD emptyMap) (initEnvVars env))) := by
  refine ⟨update_ok ts c cfgOpt env, ?_, ?_⟩
  · rw [kvKeys_write]
    decide
  · rw [kvKeys_write]
    decide

/-- Claim C8: parsing an existing `.env` trims each line, skips blank
lines and lines starting with the hash character, splits the remaining
lines on the first equals sign with both sides trimmed, and keeps the last
occurrence of a duplicated key: the parsed map equals
last-occurrence-wins lookup over the per-line entries. -/
theorem parse_trims_skips_lastwins (lines : List String) (k : String) :
    parseEnvLines lines k = lastWinsLookup (lines.filterMap lineEntry) k := by
  unfold parseEnvLines
  rw [parse_foldl_lastWins]
  rw [show emptyMap k = none from rfl, Option.or_none]

/-- Claim C9 (implicit): the defaults for `RPC_URL`, `CHAIN_ID` and
`PLATFORM_FEE_RATE` apply only when the key is entirely absent from the
parsed `.env`, not when it is present with an empty value; a prior
`RPC_URL=` line yields an output `RPC_URL=` line with an empty value. -/
theorem defaults_only_when_absent (ts : String) (c : EnvMap) (cfgOpt : Option EnvMap)
    (m : EnvMap) :
    mergeEnvVars c (cfgOpt.getD emptyMap) m kRpcUrl
      = some ((m kRpcUrl).getD defaultRpcUrl) ∧
    mergeEnvVars c (cfgOpt.getD emptyMap) m kChainId
      = some ((m kChainId).getD defaultChainId) ∧
    mergeEnvVars c (cfgOpt.getD emptyMap) m kPlatformFeeRate
      = some ((m kPlatformFeeRate).getD defaultFeeRate) ∧
    parseEnvLines ["RPC_URL="] kRpcUrl = some ("") ∧
    (writeEnvLines ts (mergeEnvVars c (cfgOpt.getD emptyMap) (parseEnvLines ["RPC_URL="]))).get? 5
      = some ("RPC_URL=") := by
  refine ⟨merge_rpc c _ m, merge_chain c _ m, merge_fee c _ m, by decide, ?_⟩
  show some (envLine kRpcUrl
      ((mergeEnvVars c (cfgOpt.getD emptyMap) (parseEnvLines ["RPC_URL="]) kRpcUrl).getD defaultRpcUrl))
    = some ("RPC_URL=")
  rw [merge_rpc]
  rw [show parseEnvLines ["RPC_URL="] kRpcUrl = some ("") from by decide]
  decide

/-- Claim C10 (implicit): when the deployment file exists and parses but
lacks the `contracts` key, the call raises KeyError before `.env` is
opened for writing, so the prior `.env` state is left unchanged. -/
theorem missing_contracts_key_raises (ts : String) (cfgOpt : Option EnvMap)
    (env : Option (List String)) :
    update_env_file ts (some ⟨none, cfgOpt⟩) env = .keyError ∧
    runMain ts ⟨some ⟨none, cfgOpt⟩, env⟩ = (⟨some ⟨none, cfgOpt⟩, env⟩, .uncaughtKeyError) :=
  ⟨rfl, rfl⟩


/-- Witness for C1 -/
theorem fresh_env_exact_content_witness :
    update_env_file tsOne (some ⟨some cW, some cfgW⟩) none =
      .ok
        [ "# 环境变量配置文件",
          "# 自动更新于: " ++ tsOne,
          "# ETH Mode - 使用原生 ETH 进行支付",
          "",
          "# ==================== 区块链配置 ====================",
          envLine kRpcUrl defaultRpcUrl,
          envLine kChainId defaultChainId,
          "",
          "# ==================== 合约地址 (ETH 模式) ====================",
          envLine kPaymentEscrowAddr addrP,
          envLine kRideOrderAddr addrR,
          envLine kUserRegistryAddr addrU,
          envLine kRatingSystemAddr addrS,
          envLine kDisputeResolutionAddr addrD,
          "",
          "# ==================== 平台配置 ====================",
          envLine kPlatformWallet addrW,
          envLine kPlatformFeeRate defaultFeeRate ]
        [ "✓ .env 文件已更新",
          "",
          "更新的合约地址:",
          "  RIDE_ORDER_ADDRESS: " ++ addrR,
          "  PAYMENT_ESCROW_ADDRESS: " ++ addrP,
          "  USER_REGISTRY_ADDRESS: " ++ addrU,
          "  RATING_SYSTEM_ADDRESS: " ++ addrS,
          "  DISPUTE_RESOLUTION_ADDRESS: " ++ addrD ] :=
  fresh_env_exact_content tsOne addrR addrP addrU addrS addrD addrW cW cfgW
    (by decide) (by decide) (by decide) (by decide) (by decide) (by decide)

/-- Witness for C5 -/
theorem rerun_identical_except_timestamp_witness :
    update_env_file tsTwo (some ⟨some cW, some cfgW⟩) (some out1W)
      = .ok (out1W.set 1 ("# 自动更新于: " ++ tsTwo)) so1W :=
  rerun_identical_except_timestamp tsOne tsTwo cW (some cfgW) none out1W so1W rfl

/-- Witness for C6 -/
theorem absent_keys_written_empty_witness :
    cMissing keyRatingSystem = none ∧
    (writeEnvLines tsOne (mergeEnvVars cMissing ((none : Option EnvMap).getD emptyMap)
        (initEnvVars none))).get? 12 = some ("RATING_SYSTEM_ADDRESS=") ∧
    (writeEnvLines tsOne (mergeEnvVars cMissing ((none : Option EnvMap).getD emptyMap)
        (initEnvVars none))).get? 16 = some ("PLATFORM_WALLET=") :=
  ⟨by decide,
   (absent_keys_written_empty tsOne cMissing none none).2.2.2.2.1 (by decide),
   (absent_keys_written_empty tsOne cMissing none none).2.2.2.2.2.2 (by decide)⟩

end TrustFlow
